import Mathlib

/-!
# Verification of the code-documentation/tutorial generation pipeline

Shallow embedding of the pipeline sources:
 - `src/doc_generator.py`   (annotation of elements, project overview)
 - `src/tutorial_planner.py` (checkpoint load, outline builder)
 - `src/script_generator.py` (script synthesis)
 - `src/main.py`             (checkpoint save)

Modelling conventions:
 - A Python `CodeElement` dict (keys `file_path, name, type, code,
   start_line, end_line, class_name`, later `explanation, docstring`) is the
   structure `CodeElement`.  A missing key and a key holding `None` are both
   `Option.none` (the sources only access these keys through `.get`, which
   identifies the two).
 - The external model service is an oracle `Nat → Option String`: the n-th
   chat-completion call of a run either returns the raw response text or
   fails (`none` models any exception caught by the `try/except` in
   `_make_api_call` / `_make_llm_call_for_script`; the embedding is total, so
   "no exception escapes" holds by construction).  A call counter is threaded
   explicitly so that calls can be attributed to elements/sections.
 - Python strings are `String`; `str.strip()` with a character set is
   modelled as `pyStrip` over the character list.
-/

/-- One extracted source symbol, as produced by `code_parser.py` and
annotated by `doc_generator.py`. -/
structure CodeElement where
  file_path : String
  name : String
  type : String
  code : String
  start_line : Nat
  end_line : Nat
  class_name : Option String
  explanation : Option String := none
  docstring : Option String := none
deriving Repr, DecidableEq, Inhabited

/-- The external model service: call number ↦ raw response text, or failure. -/
def Oracle : Type := Nat → Option String

/-- Python `str.strip(chars)` on the character list: removes every leading
and trailing character satisfying `p`. -/
def pyStripL (p : Char → Bool) (s : List Char) : List Char :=
  ((s.dropWhile p).reverse.dropWhile p).reverse

/-- Python `str.strip(chars)`: removes every leading and trailing character
satisfying `p`. -/
def pyStrip (p : Char → Bool) (s : String) : String :=
  String.mk (pyStripL p s.data)

/-- Python `str.strip()` (no argument): strips whitespace from both ends. -/
def pyStripWs (s : String) : String :=
  pyStrip Char.isWhitespace s

/-- `_make_api_call` (doc_generator.py:14-29): performs one chat-completion
call and returns `response.choices[0].message.content.strip()`, or `None`
when the call raises.  The `try/except` is modelled by the oracle's `Option`
result. -/
def make_api_call (o : Oracle) (n : Nat) : Option String × Nat :=
  ((o n).map pyStripWs, n + 1)

/-- `generate_explanation_for_element` (doc_generator.py:31-60): builds the
explanation prompt and returns the call result unchanged.  The prompt text
does not influence the oracle, so it is not reproduced here. -/
def generate_explanation_for_element (o : Oracle) (n : Nat) : Option String × Nat :=
  make_api_call o n

/-- Cleanup of markdown code fences in `generate_docstring_for_element`
(doc_generator.py:91-99): `replace("```python\n", "", 1)` on a string known
to start with that marker removes the prefix (10 characters); likewise for
the generic "```" marker (3 characters). -/
def stripCodeFencesL (d : List Char) : List Char :=
  let d :=
    if "```python\n".data.isPrefixOf d then
      let d := d.drop 10
      if "\n```".data.isSuffixOf d then d.take (d.length - 4) else d
    else d
  if "```".data.isPrefixOf d then
    let d := d.drop 3
    if "```".data.isSuffixOf d then d.take (d.length - 3) else d
  else d

/-- See `stripCodeFencesL`; `str.startswith`/`endswith`/slicing act on the
character sequence. -/
def stripCodeFences (d : String) : String :=
  String.mk (stripCodeFencesL d.data)

/-- Quote cleanup in `generate_docstring_for_element` (doc_generator.py:102):
`docstring.strip().strip('"""').strip("'''").strip()`.  Note that
`strip('"""')` strips the character *set* {'"'}, i.e. every leading and
trailing double quote, and only then is the single-quote set stripped. -/
def stripQuoteMarkers (d : String) : String :=
  pyStripWs (pyStrip (· == '\'') (pyStrip (· == '\"') (pyStripWs d)))

/-- Full post-processing applied to a successful (already whitespace-stripped)
docstring response (doc_generator.py:90-102). -/
def cleanLLMDocstring (d : String) : String :=
  stripQuoteMarkers (stripCodeFences d)

/-- The docstring stored for a raw successful response: the response is first
stripped by `_make_api_call`; if the result is falsy (empty) it is returned
unchanged (the `if docstring:` guard skips cleanup), else cleaned. -/
def docstringOfResponse (raw : String) : String :=
  let s := pyStripWs raw
  if s.data.isEmpty then s else cleanLLMDocstring s

/-- `generate_docstring_for_element` (doc_generator.py:62-106): one call; on
success (`if docstring:`, i.e. the stripped response is non-empty) the fence
and quote cleanup is applied; a `None` result is returned as-is and an empty
string is returned without cleanup. -/
def generate_docstring_for_element (o : Oracle) (n : Nat) : Option String × Nat :=
  ((o n).map docstringOfResponse, n + 1)

/-- The element kinds processed by `process_elements_for_docs`
(doc_generator.py:162): `['function', 'method', 'async function',
'async method', 'class']`. -/
def docEligible (e : CodeElement) : Bool :=
  ["function", "method", "async function", "async method", "class"].contains e.type

/-- `process_elements_for_docs` (doc_generator.py:150-175): walks the
elements in order; for each eligible element it issues the explanation call
then the docstring call and stores the results; any other kind gets both
fields set to `None` with no call.  The second component is the call counter
(each `time.sleep` separates consecutive calls but makes none). -/
def process_elements_for_docs (o : Oracle) : Nat → List CodeElement → List CodeElement × Nat
  | n, [] => ([], n)
  | n, e :: es =>
    if docEligible e then
      let expl := (generate_explanation_for_element o n).1
      let doc := (generate_docstring_for_element o (n + 1)).1
      let rest := process_elements_for_docs o (n + 2) es
      ({ e with explanation := expl, docstring := doc } :: rest.1, rest.2)
    else
      let rest := process_elements_for_docs o n es
      ({ e with explanation := none, docstring := none } :: rest.1, rest.2)

/-- Python `str.capitalize()`: first character upper-cased, the rest
lower-cased. -/
def pyCapitalize (s : String) : String :=
  match s.data with
  | [] => ""
  | c :: cs => String.mk (c.toUpper :: cs.map Char.toLower)

/-- The summary bullet contributed by one element in
`generate_project_overview` (doc_generator.py:113-121): an element with a
truthy (non-empty) explanation yields a bullet quoting the first 150
characters of the explanation; otherwise a `class` element yields a bare
class bullet; anything else contributes nothing. -/
def overviewSummary (e : CodeElement) : Option String :=
  match e.explanation with
  | some ex =>
    if ex.data.isEmpty then
      if e.type == "class" then some ("- 类 '" ++ e.name ++ "'") else none
    else
      some (match e.class_name with
        | some cn =>
          if cn.data.isEmpty then
            "- " ++ pyCapitalize e.type ++ " '" ++ e.name ++ "': " ++ String.mk (ex.data.take 150) ++ "..."
          else
            "- " ++ pyCapitalize e.type ++ " '" ++ e.name ++ "' (在'" ++ cn ++ "'类中): "
              ++ String.mk (ex.data.take 150) ++ "..."
        | none =>
          "- " ++ pyCapitalize e.type ++ " '" ++ e.name ++ "': " ++ String.mk (ex.data.take 150) ++ "...")
  | none => if e.type == "class" then some ("- 类 '" ++ e.name ++ "'") else none

/-- `generate_project_overview` (doc_generator.py:108-148): with no elements
or no summary bullets it returns a fixed message string without calling the
model; otherwise it makes exactly one call and returns its (stripped) result,
which is `None` exactly when the call fails. -/
def generate_project_overview (o : Oracle) (n : Nat) (all_elements : List CodeElement)
    (_project_name : String) : Option String × Nat :=
  if all_elements.isEmpty then
    (some "未提供代码元素，无法生成概述。", n)
  else
    let summaries := all_elements.filterMap overviewSummary
    if summaries.isEmpty then
      (some "没有可用的解释来生成概述。", n)
    else
      make_api_call o n

/-! ## Checkpoint Store (main.py save block, tutorial_planner.py load) -/

/-- A JSON value, as produced by Python's `json` module on the element
dicts. -/
inductive JValue where
  | jnull
  | jstr (s : String)
  | jnum (i : Int)
  | jarr (elems : List JValue)
  | jobj (fields : List (String × JValue))
deriving Repr, Inhabited

/-- JSON encoding of an optional string field (`None` ↦ `null`). -/
def encodeOptStr : Option String → JValue
  | none => .jnull
  | some s => .jstr s

/-- The JSON object `json.dump` writes for one element dict, keys in the
dict's insertion order (`code_parser.py` creates the first seven keys,
`process_elements_for_docs` appends `explanation` and `docstring`). -/
def encodeElement (e : CodeElement) : JValue :=
  .jobj [("file_path", .jstr e.file_path), ("name", .jstr e.name),
         ("type", .jstr e.type), ("code", .jstr e.code),
         ("start_line", .jnum e.start_line), ("end_line", .jnum e.end_line),
         ("class_name", encodeOptStr e.class_name),
         ("explanation", encodeOptStr e.explanation),
         ("docstring", encodeOptStr e.docstring)]

def decodeOptStr : JValue → Option (Option String)
  | .jnull => some none
  | .jstr s => some (some s)
  | _ => none

def decodeNatValue : JValue → Option Nat
  | .jnum i => if i < 0 then none else some i.toNat
  | _ => none

/-- Identification of a parsed JSON object with a `CodeElement` record.
`json.load` itself performs no schema validation (it returns the parsed
dicts as-is); this decoder realizes the correspondence between those dicts
and the `CodeElement` structure of this embedding. -/
def decodeElement : JValue → Option CodeElement
  | .jobj [("file_path", .jstr fp), ("name", .jstr nm), ("type", .jstr ty),
           ("code", .jstr cd), ("start_line", sl), ("end_line", el),
           ("class_name", cn), ("explanation", ex), ("docstring", ds)] =>
    match decodeNatValue sl, decodeNatValue el, decodeOptStr cn,
          decodeOptStr ex, decodeOptStr ds with
    | some a, some b, some c, some d, some e =>
      some ⟨fp, nm, ty, cd, a, b, c, d, e⟩
    | _, _, _, _, _ => none
  | _ => none

def decodeElementList : List JValue → Option (List CodeElement)
  | [] => some []
  | v :: vs =>
    match decodeElement v, decodeElementList vs with
    | some e, some es => some (e :: es)
    | _, _ => none

def decodeElements : JValue → Option (List CodeElement)
  | .jarr xs => decodeElementList xs
  | _ => none

/-- The filesystem as seen through the JSON checkpoint: path ↦ nothing (file
absent), a parse error (file present but not valid JSON), or the parsed JSON
value. -/
def FileStore : Type := String → Option (Except String JValue)

def storeWrite (fs : FileStore) (p : String) (v : Except String JValue) : FileStore :=
  fun q => if q = p then some v else fs q

/-- The checkpoint filename `f"{project_name}_documentation_data.json"`, used
identically by the save block (main.py) and `load_documentation_data`. -/
def checkpointFileName (project_name : String) : String :=
  project_name ++ "_documentation_data.json"

/-- `os.path.join(output_base_dir, filename)`. -/
def checkpointPath (output_base_dir project_name : String) : String :=
  output_base_dir ++ "/" ++ checkpointFileName project_name

/-- The JSON checkpoint save block (main.py:117-126): only executed under
`if documented_elements:` — an empty collection writes nothing; otherwise
`json.dump` overwrites the checkpoint file with the serialized elements. -/
def saveCheckpoint (fs : FileStore) (output_base_dir project_name : String)
    (documented_elements : List CodeElement) : FileStore :=
  if documented_elements.isEmpty then fs
  else
    storeWrite fs (checkpointPath output_base_dir project_name)
      (.ok (.jarr (documented_elements.map encodeElement)))

/-- `load_documentation_data` (tutorial_planner.py:6-33): returns `[]` when
the file is absent; catches and swallows any parse exception, returning `[]`;
otherwise returns the parsed elements. -/
def load_documentation_data (fs : FileStore) (output_base_dir project_name : String) :
    List CodeElement :=
  match fs (checkpointPath output_base_dir project_name) with
  | none => []
  | some (.error _) => []
  | some (.ok v) => (decodeElements v).getD []

/-! ## Outline Builder (tutorial_planner.py:35-110) -/

/-- One entry of a `core_features_parent`'s `sub_sections` list. -/
structure SubSection where
  section_type : String
  title : String
  element_name : String
  element_type : String
  element_class_name : Option String
  code_snippet : String
  explanation : Option String
  file_path : String
deriving Repr, DecidableEq, Inhabited

/-- One top-level outline section dict.  Keys a given section does not carry
(`content_source` on the parent, `project_name` outside the introduction) are
`none`/`[]`; the consumers only access them through `.get`. -/
structure TutSection where
  section_type : String
  title : String
  content_source : Option String
  project_name : Option String
  sub_sections : List SubSection
deriving Repr, DecidableEq, Inhabited

/-- Truthiness of `el.get('explanation')`: present and non-empty. -/
def explanationTruthy (e : CodeElement) : Bool :=
  match e.explanation with
  | some s => !s.data.isEmpty
  | none => false

/-- The filter of `elements_to_explain` (tutorial_planner.py:78):
`el.get('explanation') and el['type'] in ['function', 'method', 'class',
'async function', 'async method']`. -/
def outlineEligible (e : CodeElement) : Bool :=
  explanationTruthy e &&
    ["function", "method", "class", "async function", "async method"].contains e.type

/-- The composite sort key (tutorial_planner.py:79-83):
`(x.get('file_path', ''), x.get('class_name') or '', x.get('start_line', 0))`. -/
def outlineKey (e : CodeElement) : String × String × Nat :=
  (e.file_path, e.class_name.getD "", e.start_line)

/-- Lexicographic ≤ on the composite key: `file_path` ascending, then
`class_name` (absent as `""`) ascending, then `start_line` ascending. -/
def keyLe (a b : CodeElement) : Prop :=
  (outlineKey a).1 < (outlineKey b).1 ∨
    ((outlineKey a).1 = (outlineKey b).1 ∧
      ((outlineKey a).2.1 < (outlineKey b).2.1 ∨
        ((outlineKey a).2.1 = (outlineKey b).2.1 ∧
          (outlineKey a).2.2 ≤ (outlineKey b).2.2)))

instance : DecidableRel keyLe := fun a b =>
  decidable_of_iff
    ((outlineKey a).1.toList < (outlineKey b).1.toList ∨
      ((outlineKey a).1 = (outlineKey b).1 ∧
        ((outlineKey a).2.1.toList < (outlineKey b).2.1.toList ∨
          ((outlineKey a).2.1 = (outlineKey b).2.1 ∧
            (outlineKey a).2.2 ≤ (outlineKey b).2.2))))
    (by simp [keyLe, String.lt_iff_toList_lt])

instance : IsTotal CodeElement keyLe := by
  constructor
  intro a b
  rcases lt_trichotomy (outlineKey a).1 (outlineKey b).1 with h | h | h
  · exact Or.inl (Or.inl h)
  · rcases lt_trichotomy (outlineKey a).2.1 (outlineKey b).2.1 with h2 | h2 | h2
    · exact Or.inl (Or.inr ⟨h, Or.inl h2⟩)
    · rcases Nat.le_total (outlineKey a).2.2 (outlineKey b).2.2 with h3 | h3
      · exact Or.inl (Or.inr ⟨h, Or.inr ⟨h2, h3⟩⟩)
      · exact Or.inr (Or.inr ⟨h.symm, Or.inr ⟨h2.symm, h3⟩⟩)
    · exact Or.inr (Or.inr ⟨h.symm, Or.inl h2⟩)
  · exact Or.inr (Or.inl h)

instance : IsTrans CodeElement keyLe := by
  constructor
  intro a b c hab hbc
  rcases hab with h1 | ⟨e1, h1⟩
  · rcases hbc with h2 | ⟨e2, _⟩
    · exact Or.inl (h1.trans h2)
    · exact Or.inl (e2 ▸ h1)
  · rcases hbc with h2 | ⟨e2, h2⟩
    · exact Or.inl (e1 ▸ h2)
    · refine Or.inr ⟨e1.trans e2, ?_⟩
      rcases h1 with h1 | ⟨f1, h1⟩
      · rcases h2 with h2 | ⟨f2, _⟩
        · exact Or.inl (h1.trans h2)
        · exact Or.inl (f2 ▸ h1)
      · rcases h2 with h2 | ⟨f2, h2⟩
        · exact Or.inl (f1 ▸ h2)
        · exact Or.inr ⟨f1.trans f2, h1.trans h2⟩

/-- The sorted, filtered list `elements_to_explain`
(tutorial_planner.py:77-85).  Python's `sorted` is a stable sort by the
composite key; `List.insertionSort` is likewise stable, so the two agree. -/
def elements_to_explain (documented_elements : List CodeElement) : List CodeElement :=
  (documented_elements.filter outlineEligible).insertionSort keyLe

/-- The feature title (tutorial_planner.py:88-90); a truthy `class_name`
switches to the qualified form. -/
def featureTitle (e : CodeElement) : String :=
  match e.class_name with
  | some cn =>
    if cn.data.isEmpty then pyCapitalize e.type ++ "：`" ++ e.name ++ "`"
    else pyCapitalize e.type ++ "：`" ++ cn ++ "." ++ e.name ++ "`"
  | none => pyCapitalize e.type ++ "：`" ++ e.name ++ "`"

/-- The `core_feature_detail` sub-section dict built for one element
(tutorial_planner.py:92-100). -/
def toFeatureDetail (e : CodeElement) : SubSection :=
  { section_type := "core_feature_detail"
    title := featureTitle e
    element_name := e.name
    element_type := e.type
    element_class_name := e.class_name
    code_snippet := e.code
    explanation := e.explanation
    file_path := e.file_path }

/-- `build_tutorial_outline` (tutorial_planner.py:35-110): returns `[]` for an
empty input collection; otherwise emits introduction, setup, the core-features
parent (only when it has sub-sections), and the conclusion. -/
def build_tutorial_outline (documented_elements : List CodeElement)
    (project_name : String) (readme_overview : Option String) : List TutSection :=
  if documented_elements.isEmpty then []
  else
    let intro : TutSection :=
      { section_type := "introduction"
        title := "欢迎学习 " ++ project_name ++ " 教程"
        content_source := some (match readme_overview with
          | some ov =>
            if ov.data.isEmpty then "请基于 " ++ project_name ++ " 项目的目的和主要功能生成引言。"
            else ov
          | none => "请基于 " ++ project_name ++ " 项目的目的和主要功能生成引言。")
        project_name := some project_name
        sub_sections := [] }
    let setup : TutSection :=
      { section_type := "setup"
        title := "环境设置与安装"
        content_source := some ("请提供关于如何安装和配置 " ++ project_name ++ " 项目的说明。")
        project_name := none
        sub_sections := [] }
    let core : TutSection :=
      { section_type := "core_features_parent"
        title := "核心功能详解"
        content_source := none
        project_name := none
        sub_sections := (elements_to_explain documented_elements).map toFeatureDetail }
    let concl : TutSection :=
      { section_type := "conclusion"
        title := "总结与展望"
        content_source := some ("请对 " ++ project_name ++ " 教程内容进行总结，并提供学习建议或下一步指引。")
        project_name := none
        sub_sections := [] }
    [intro, setup] ++ (if core.sub_sections.isEmpty then [] else [core]) ++ [concl]

/-! ## Script Synthesizer (script_generator.py) -/

/-- One entry of the list returned by `generate_full_tutorial_script`
(keys `title`, `type`, `script`). -/
structure ScriptPart where
  title : String
  type : String
  script : String
deriving Repr, DecidableEq, Inhabited

/-- The sentinel stored when a section's call fails
(script_generator.py:148,160). -/
def scriptSentinel : String := "# 未能生成此部分的脚本"

/-- `script_content if script_content else "# 未能生成此部分的脚本"`: a `None`
or empty (falsy) result becomes the sentinel. -/
def renderScript : Option String → String
  | some s => if s.data.isEmpty then scriptSentinel else s
  | none => scriptSentinel

/-- `generate_script_for_section` (script_generator.py:38-134): selects a
prompt template by `section_type` (with a generic fallback for unmatched
types), then makes one call through `_make_llm_call_for_script` and returns
its stripped result.  Every template branch produces a non-empty prompt, so
the `if not script_prompt: return None` guard is unreachable; the prompt text
does not influence the oracle and is not reproduced here. -/
def generate_script_for_section (o : Oracle) (n : Nat) : Option String × Nat :=
  ((o n).map pyStripWs, n + 1)

/-- The inner loop over a parent's `sub_sections`
(script_generator.py:146-152). -/
def scriptSubLoop (o : Oracle) : Nat → List SubSection → List ScriptPart × Nat
  | n, [] => ([], n)
  | n, ss :: rest =>
    let r := generate_script_for_section o n
    let tail := scriptSubLoop o r.2 rest
    ({ title := ss.title, type := ss.section_type, script := renderScript r.1 } :: tail.1,
      tail.2)

/-- `generate_full_tutorial_script` (script_generator.py:136-168): walks the
outline in order; a `core_features_parent` section contributes one part per
sub-section (the parent itself none); every other section contributes one
part; failed calls yield the sentinel script. -/
def generate_full_tutorial_script (o : Oracle) : Nat → List TutSection → List ScriptPart × Nat
  | n, [] => ([], n)
  | n, sec :: rest =>
    if sec.section_type == "core_features_parent" then
      let subs := scriptSubLoop o n sec.sub_sections
      let tail := generate_full_tutorial_script o subs.2 rest
      (subs.1 ++ tail.1, tail.2)
    else
      let r := generate_script_for_section o n
      let tail := generate_full_tutorial_script o r.2 rest
      ({ title := sec.title, type := sec.section_type, script := renderScript r.1 } :: tail.1,
        tail.2)

/-- Spec-side measure: the leaf sections of an outline, as (title,
section_type) pairs — every section except a `core_features_parent`, plus
each of a parent's sub-sections, in traversal order. -/
def outlineLeaves (outline : List TutSection) : List (String × String) :=
  outline.flatMap fun sec =>
    if sec.section_type == "core_features_parent" then
      sec.sub_sections.map fun ss => (ss.title, ss.section_type)
    else
      [(sec.title, sec.section_type)]

/-- Spec-side measure: the number of leaf sections of an outline. -/
def leafCount (outline : List TutSection) : Nat :=
  (outlineLeaves outline).length

/-! ## Spec-side measures and concrete fixtures -/

/-- An element with its generated fields cleared: the part of a `CodeElement`
that the Annotation Synthesizer must not touch. -/
def clearGenerated (e : CodeElement) : CodeElement :=
  { e with explanation := none, docstring := none }

/-- Number of sections of a given `section_type` in an outline. -/
def countSectionType (outline : List TutSection) (ty : String) : Nat :=
  outline.countP (fun s => s.section_type == ty)

/-- The sequence of script parts produced for a flat list of leaves starting
at call number `n`: one call per leaf, sentinel on failure. -/
def leafParts (o : Oracle) : Nat → List (String × String) → List ScriptPart
  | _, [] => []
  | n, (t, ty) :: rest =>
    { title := t, type := ty, script := renderScript ((o n).map pyStripWs) }
      :: leafParts o (n + 1) rest

/-- Fixture: top-level function in `a.py` at line 1 (the claim C3 example's
`a.py/None/1`). -/
def exA1 : CodeElement :=
  { file_path := "a.py", name := "f1", type := "function", code := "def f1(): pass",
    start_line := 1, end_line := 2, class_name := none, explanation := some "explains f1" }

/-- Fixture: method of class `C` in `a.py` at line 2 (`a.py/C/2`). -/
def exAC2 : CodeElement :=
  { file_path := "a.py", name := "m2", type := "method", code := "def m2(self): pass",
    start_line := 2, end_line := 3, class_name := some "C", explanation := some "explains m2" }

/-- Fixture: top-level function in `b.py` at line 5 (`b.py/None/5`). -/
def exB5 : CodeElement :=
  { file_path := "b.py", name := "f5", type := "function", code := "def f5(): pass",
    start_line := 5, end_line := 6, class_name := none, explanation := some "explains f5" }

/-- Fixture: an element of a kind outside the five documented ones. -/
def exSkip : CodeElement :=
  { file_path := "a.py", name := "imports", type := "import", code := "import os",
    start_line := 1, end_line := 1, class_name := none }

/-- Fixture: the outline built from the claim C3 example collection. -/
def exOutline : List TutSection :=
  build_tutorial_outline [exB5, exAC2, exA1] "proj" none

/-- Fixture: the `core_features_parent` section of `exOutline` (index 2,
after introduction and setup). -/
def exParent : TutSection :=
  exOutline.getD 2 default

/-- Fixture oracle: every call fails. -/
def oracleAllFail : Oracle := fun _ => none

/-- Fixture oracle: only call 0 succeeds. -/
def oracleFirstOnly : Oracle := fun i => if i = 0 then some " 解释文本 " else none

/-- Fixture oracle: only call 1 succeeds. -/
def oracleSecondOnly : Oracle := fun i => if i = 1 then some " \"文档字符串\" " else none

/-- Fixture oracle: every call succeeds. -/
def oracleAllOk : Oracle := fun _ => some "回复"

/-- Fixture: an empty file store (no checkpoint file exists). -/
def emptyStore : FileStore := fun _ => none

/-- Fixture: a file store whose every file exists but fails to parse. -/
def corruptStore : FileStore := fun _ => some (.error "Expecting value: line 1 column 1 (char 0)")

/-! ## Helper lemmas: checkpoint serialization -/

theorem decodeNatValue_natCast (n : Nat) : decodeNatValue (.jnum n) = some n := by
  have h : ¬ ((n : Int) < 0) := by omega
  simp [decodeNatValue, h]

theorem decodeElement_encodeElement (e : CodeElement) :
    decodeElement (encodeElement e) = some e := by
  cases e with
  | mk fp nm ty cd sl el cn ex ds =>
    cases cn <;> cases ex <;> cases ds <;>
      simp [encodeElement, decodeElement, decodeOptStr, decodeNatValue_natCast, encodeOptStr]

theorem decodeElements_encode (es : List CodeElement) :
    decodeElements (.jarr (es.map encodeElement)) = some es := by
  induction es with
  | nil => simp [decodeElements, decodeElementList]
  | cons e es ih =>
    simp only [decodeElements, List.map_cons, decodeElementList,
      decodeElement_encodeElement] at ih ⊢
    simp [ih]

theorem storeWrite_read (fs : FileStore) (p : String) (v : Except String JValue) :
    storeWrite fs p v p = some v := by
  simp [storeWrite]

/-- C1 (amended): for every non-empty serializable element collection E and
any prior store, loading after saving yields E field-for-field; saving an
empty collection writes nothing (main.py guards the dump with
`if documented_elements:`), so the round trip for the empty collection holds
only when no checkpoint file already exists. -/
theorem C1_checkpoint_roundtrip (fs : FileStore) (base pn : String) (es : List CodeElement) :
    (es ≠ [] → load_documentation_data (saveCheckpoint fs base pn es) base pn = es) ∧
    (es = [] → saveCheckpoint fs base pn es = fs) ∧
    (es = [] → fs (checkpointPath base pn) = none →
      load_documentation_data (saveCheckpoint fs base pn es) base pn = es) := by
  refine ⟨?_, ?_, ?_⟩
  · intro h
    have hne : es.isEmpty = false := by
      cases es with
      | nil => simp at h
      | cons a l => simp [List.isEmpty]
    simp [saveCheckpoint, hne, load_documentation_data, storeWrite_read, decodeElements_encode]
  · intro h; subst h; simp [saveCheckpoint]
  · intro h hf; subst h; simp [saveCheckpoint, load_documentation_data, hf]

/-- C1 counterexample: the round trip fails for the empty collection in a
store that already holds a checkpoint for the project — saving `[]` writes
nothing, so the stale elements are loaded back instead of `[]`. -/
theorem C1_counterexample :
    load_documentation_data
      (saveCheckpoint (saveCheckpoint emptyStore "output_generated_docs" "proj" [exA1])
        "output_generated_docs" "proj" []) "output_generated_docs" "proj" = [exA1] ∧
    ([exA1] : List CodeElement) ≠ ([] : List CodeElement) := by
  constructor
  · decide
  · decide

/-- C1 witness: the round trip evaluated on a concrete non-empty collection. -/
theorem C1_checkpoint_roundtrip_witness :
    load_documentation_data (saveCheckpoint emptyStore "out" "proj" [exA1, exSkip]) "out" "proj" =
      [exA1, exSkip] :=
  (C1_checkpoint_roundtrip emptyStore "out" "proj" [exA1, exSkip]).1 (by decide)

/-- C8: checkpoint load returns the empty collection, without raising, both
when the checkpoint file for the project is absent and when it exists but
fails to parse. -/
theorem C8_load_failure_modes (fs : FileStore) (base pn : String) :
    (fs (checkpointPath base pn) = none → load_documentation_data fs base pn = []) ∧
    (∀ msg, fs (checkpointPath base pn) = some (.error msg) →
      load_documentation_data fs base pn = []) := by
  constructor
  · intro h; simp [load_documentation_data, h]
  · intro msg h; simp [load_documentation_data, h]

/-- C8 witness: load evaluated on an absent file and on an unparseable file. -/
theorem C8_load_failure_modes_witness :
    load_documentation_data emptyStore "out" "proj" = [] ∧
    load_documentation_data corruptStore "out" "proj" = [] :=
  ⟨(C8_load_failure_modes emptyStore "out" "proj").1 rfl,
   (C8_load_failure_modes corruptStore "out" "proj").2
     "Expecting value: line 1 column 1 (char 0)" rfl⟩

/-! ## Helper lemmas: annotation stage -/

theorem process_length (o : Oracle) (es : List CodeElement) : ∀ n,
    (process_elements_for_docs o n es).1.length = es.length := by
  induction es with
  | nil => intro n; simp [process_elements_for_docs]
  | cons e es ih =>
    intro n
    by_cases h : docEligible e <;> simp [process_elements_for_docs, h, ih]

theorem process_counter (o : Oracle) (es : List CodeElement) : ∀ n,
    (process_elements_for_docs o n es).2 = n + 2 * es.countP docEligible := by
  induction es with
  | nil => intro n; simp [process_elements_for_docs]
  | cons e es ih =>
    intro n
    by_cases h : docEligible e
    · simp [process_elements_for_docs, h, ih, List.countP_cons]
      omega
    · simp [process_elements_for_docs, h, ih, List.countP_cons]

theorem process_append (o : Oracle) (xs ys : List CodeElement) : ∀ n,
    process_elements_for_docs o n (xs ++ ys) =
      ((process_elements_for_docs o n xs).1 ++
        (process_elements_for_docs o (process_elements_for_docs o n xs).2 ys).1,
       (process_elements_for_docs o (process_elements_for_docs o n xs).2 ys).2) := by
  induction xs with
  | nil => intro n; simp [process_elements_for_docs]
  | cons e xs ih =>
    intro n
    by_cases h : docEligible e <;> simp [process_elements_for_docs, h, ih]

theorem process_clearGenerated (o : Oracle) (es : List CodeElement) : ∀ n,
    (process_elements_for_docs o n es).1.map clearGenerated = es.map clearGenerated := by
  induction es with
  | nil => intro n; simp [process_elements_for_docs]
  | cons e es ih =>
    intro n
    by_cases h : docEligible e <;> simp [process_elements_for_docs, h, ih, clearGenerated]

theorem process_getD_middle (o : Oracle) (n : Nat) (pre post : List CodeElement)
    (e : CodeElement) (h : docEligible e = true) :
    (process_elements_for_docs o n (pre ++ e :: post)).1.getD pre.length default =
      { e with explanation := (o (n + 2 * pre.countP docEligible)).map pyStripWs,
               docstring := (o (n + 2 * pre.countP docEligible + 1)).map docstringOfResponse } := by
  rw [process_append]
  rw [List.getD_eq_getElem?_getD, List.getElem?_append_right (by simp [process_length])]
  simp [process_length, process_counter, process_elements_for_docs, h,
    generate_explanation_for_element, generate_docstring_for_element, make_api_call]

theorem process_getD_middle_skip (o : Oracle) (n : Nat) (pre post : List CodeElement)
    (e : CodeElement) (h : docEligible e = false) :
    (process_elements_for_docs o n (pre ++ e :: post)).1.getD pre.length default =
      { e with explanation := none, docstring := none } := by
  rw [process_append]
  rw [List.getD_eq_getElem?_getD, List.getElem?_append_right (by simp [process_length])]
  simp [process_length, process_elements_for_docs, h]

/-- C10: after the annotation stage returns, every element of the result is
its input element with the two generated fields (re)assigned — erasing
`explanation`/`docstring` recovers the input collection exactly, so the
result is the same sequence of elements, in the same order, with nothing
added or removed, and each element carries both generated fields (possibly
absent-valued). -/
theorem C10_process_preserves_collection (o : Oracle) (n : Nat) (es : List CodeElement) :
    (process_elements_for_docs o n es).1.map clearGenerated = es.map clearGenerated ∧
    (process_elements_for_docs o n es).1.length = es.length :=
  ⟨process_clearGenerated o es n, process_length o es n⟩

/-- C5: the explanation call and the docstring call of one element are
independent.  The element at position `pre.length` is processed with calls
`m = n + 2·(eligible elements before it)` and `m + 1`; if only the docstring
call fails the element keeps the stripped explanation and gets no docstring,
and symmetrically; in both cases the whole collection is still processed
(the output has full length), and no exception escapes (the embedding is
total). -/
theorem C5_call_independence (o : Oracle) (n : Nat) (pre post : List CodeElement)
    (e : CodeElement) (r : String) (helig : docEligible e = true) :
    (process_elements_for_docs o n (pre ++ e :: post)).1.length =
      pre.length + 1 + post.length ∧
    (o (n + 2 * pre.countP docEligible) = some r →
      o (n + 2 * pre.countP docEligible + 1) = none →
      (process_elements_for_docs o n (pre ++ e :: post)).1.getD pre.length default =
        { e with explanation := some (pyStripWs r), docstring := none }) ∧
    (o (n + 2 * pre.countP docEligible) = none →
      o (n + 2 * pre.countP docEligible + 1) = some r →
      (process_elements_for_docs o n (pre ++ e :: post)).1.getD pre.length default =
        { e with explanation := none, docstring := some (docstringOfResponse r) }) := by
  refine ⟨?_, ?_, ?_⟩
  · simp [process_length]
    omega
  · intro h1 h2
    rw [process_getD_middle o n pre post e helig, h1, h2]
    rfl
  · intro h1 h2
    rw [process_getD_middle o n pre post e helig, h1, h2]
    rfl

/-- C5 witness: a single eligible element under an oracle whose docstring
call fails (first conjunct) and one whose explanation call fails (second). -/
theorem C5_call_independence_witness :
    (process_elements_for_docs oracleFirstOnly 0 [exA1]).1.getD 0 default =
      { exA1 with explanation := some "解释文本", docstring := none } ∧
    (process_elements_for_docs oracleSecondOnly 0 [exA1]).1.getD 0 default =
      { exA1 with explanation := none, docstring := some "文档字符串" } := by
  constructor
  · exact ((C5_call_independence oracleFirstOnly 0 [] [] exA1 " 解释文本 "
      (by decide)).2.1 (by decide) (by decide)).trans (by decide)
  · exact ((C5_call_independence oracleSecondOnly 0 [] [] exA1 " \"文档字符串\" "
      (by decide)).2.2 (by decide) (by decide)).trans (by decide)

/-- C7: an element whose kind is outside the five documented ones is skipped
with both generated fields left absent and contributes no model call (the
call counter is the same as if the element were not in the collection); an
eligible element receives exactly its explanation call (first) and docstring
call (second), advancing the counter by two; overall the stage makes exactly
two calls per eligible element. -/
theorem C7_kind_filter (o : Oracle) (n : Nat) (es pre post : List CodeElement)
    (e : CodeElement) :
    (docEligible e = false →
      (process_elements_for_docs o n (pre ++ e :: post)).1.getD pre.length default =
        { e with explanation := none, docstring := none } ∧
      (process_elements_for_docs o n (pre ++ e :: post)).2 =
        (process_elements_for_docs o n (pre ++ post)).2) ∧
    (docEligible e = true →
      (process_elements_for_docs o n (pre ++ e :: post)).1.getD pre.length default =
        { e with explanation := (o (n + 2 * pre.countP docEligible)).map pyStripWs,
                 docstring :=
                   (o (n + 2 * pre.countP docEligible + 1)).map docstringOfResponse } ∧
      (process_elements_for_docs o n (pre ++ e :: post)).2 =
        (process_elements_for_docs o n (pre ++ post)).2 + 2) ∧
    (process_elements_for_docs o n es).2 = n + 2 * es.countP docEligible := by
  refine ⟨?_, ?_, process_counter o es n⟩
  · intro h
    refine ⟨process_getD_middle_skip o n pre post e h, ?_⟩
    simp [process_counter, List.countP_append, List.countP_cons, h]
  · intro h
    refine ⟨process_getD_middle o n pre post e h, ?_⟩
    simp [process_counter, List.countP_append, List.countP_cons, h]
    omega

/-- C7 witness: a skipped `import`-kind element between two eligible ones
gets absent fields and leaves the call counter unchanged. -/
theorem C7_kind_filter_witness :
    (process_elements_for_docs oracleAllOk 0 [exA1, exSkip, exB5]).1.getD 1 default =
      { exSkip with explanation := none, docstring := none } ∧
    (process_elements_for_docs oracleAllOk 0 [exA1, exSkip, exB5]).2 =
      (process_elements_for_docs oracleAllOk 0 [exA1, exB5]).2 := by
  exact (C7_kind_filter oracleAllOk 0 [] [exA1] [exB5] exSkip).1 (by decide)

/-- C4 (amended): the Overview Synthesizer returns an absent result only when
its single model call fails; with no elements, or with no summary bullets
(no element has a non-empty explanation and none is a class), it returns a
fixed placeholder message — a present string, not an absent value — without
calling the model. -/
theorem C4_overview_absence (o : Oracle) (n : Nat) (es : List CodeElement) (pn : String) :
    (es = [] → generate_project_overview o n es pn =
      (some "未提供代码元素，无法生成概述。", n)) ∧
    (es ≠ [] → es.filterMap overviewSummary = [] →
      generate_project_overview o n es pn = (some "没有可用的解释来生成概述。", n)) ∧
    (es ≠ [] → es.filterMap overviewSummary ≠ [] →
      generate_project_overview o n es pn = ((o n).map pyStripWs, n + 1) ∧
        ((generate_project_overview o n es pn).1 = none ↔ o n = none)) := by
  refine ⟨?_, ?_, ?_⟩
  · intro h
    subst h
    simp [generate_project_overview]
  · intro h hsum
    have hne : es.isEmpty = false := by
      cases es with
      | nil => simp at h
      | cons a l => simp [List.isEmpty]
    simp [generate_project_overview, hne, hsum]
  · intro h hsum
    have hne : es.isEmpty = false := by
      cases es with
      | nil => simp at h
      | cons a l => simp [List.isEmpty]
    have hs : (es.filterMap overviewSummary).isEmpty = false := by
      cases hfm : es.filterMap overviewSummary with
      | nil => exact absurd hfm hsum
      | cons a l => simp [List.isEmpty]
    constructor
    · simp [generate_project_overview, hne, hs, make_api_call]
    · simp [generate_project_overview, hne, hs, make_api_call]

/-- C4 counterexample: with zero elements (and a model that would succeed if
called), the synthesizer returns a fixed message string, not an absent
result — the claim's "returns absent if the element collection is empty"
fails on the code. -/
theorem C4_counterexample :
    (generate_project_overview oracleAllOk 0 [] "proj").1 =
      some "未提供代码元素，无法生成概述。" ∧
    (generate_project_overview oracleAllOk 0 [] "proj").1 ≠ none := by
  constructor
  · decide
  · decide

/-- C4 witness: the amended behavior evaluated in all three branches — empty
collection, no summary bullets, and a failing model call. -/
theorem C4_overview_absence_witness :
    generate_project_overview oracleAllOk 0 [] "proj" =
      (some "未提供代码元素，无法生成概述。", 0) ∧
    generate_project_overview oracleAllOk 0 [exSkip] "proj" =
      (some "没有可用的解释来生成概述。", 0) ∧
    (generate_project_overview oracleAllFail 0 [exA1] "proj").1 = none := by
  refine ⟨(C4_overview_absence oracleAllOk 0 [] "proj").1 rfl,
    (C4_overview_absence oracleAllOk 0 [exSkip] "proj").2.1 (by decide) (by decide), ?_⟩
  exact ((C4_overview_absence oracleAllFail 0 [exA1] "proj").2.2 (by decide) (by decide)).2.mpr rfl

/-! ## Helper lemmas: outline builder -/

theorem elements_to_explain_sorted (es : List CodeElement) :
    (elements_to_explain es).Sorted keyLe :=
  List.sorted_insertionSort keyLe _

theorem elements_to_explain_perm (es : List CodeElement) :
    (elements_to_explain es).Perm (es.filter outlineEligible) :=
  List.perm_insertionSort keyLe _

theorem elements_to_explain_eq_nil_iff (es : List CodeElement) :
    elements_to_explain es = [] ↔ es.filter outlineEligible = [] := by
  constructor
  · intro h
    have hp := elements_to_explain_perm es
    rw [h] at hp
    exact hp.symm.eq_nil
  · intro h
    have hp := elements_to_explain_perm es
    rw [h] at hp
    exact hp.eq_nil

theorem outline_parent_sub_sections (es : List CodeElement) (pn : String)
    (ov : Option String) (sec : TutSection) (hmem : sec ∈ build_tutorial_outline es pn ov)
    (hty : sec.section_type = "core_features_parent") :
    sec.sub_sections = (elements_to_explain es).map toFeatureDetail := by
  by_cases hne : es.isEmpty
  · simp [build_tutorial_outline, hne] at hmem
  · by_cases hE : elements_to_explain es = []
    · simp [build_tutorial_outline, hne, hE] at hmem
      rcases hmem with h | h | h <;> rw [h] at hty <;> simp at hty
    · simp [build_tutorial_outline, hne, hE] at hmem
      rcases hmem with h | h | h | h
      · rw [h] at hty; simp at hty
      · rw [h] at hty; simp at hty
      · rw [h]
      · rw [h] at hty; simp at hty

/-- C2 (amended): for every NON-EMPTY input collection the outline contains
exactly one introduction, one setup and one conclusion section, and a
core-features parent exactly when some element passes the
explanation-and-kind filter; for the EMPTY collection
`build_tutorial_outline` returns the empty outline (no sections at all)
instead. -/
theorem C2_outline_sections (es : List CodeElement) (pn : String) (ov : Option String) :
    (es = [] → build_tutorial_outline es pn ov = []) ∧
    (es ≠ [] →
      countSectionType (build_tutorial_outline es pn ov) "introduction" = 1 ∧
      countSectionType (build_tutorial_outline es pn ov) "setup" = 1 ∧
      countSectionType (build_tutorial_outline es pn ov) "conclusion" = 1 ∧
      countSectionType (build_tutorial_outline es pn ov) "core_features_parent" =
        (if es.filter outlineEligible = [] then 0 else 1)) := by
  constructor
  · intro h
    subst h
    simp [build_tutorial_outline]
  · intro h
    have hne : es.isEmpty = false := by
      cases es with
      | nil => simp at h
      | cons a l => simp [List.isEmpty]
    by_cases hf : es.filter outlineEligible = []
    · have hE : elements_to_explain es = [] := (elements_to_explain_eq_nil_iff es).mpr hf
      simp [build_tutorial_outline, hne, hE, hf, countSectionType, List.countP_cons,
        List.countP_append]
    · have hE : elements_to_explain es ≠ [] := fun hh =>
        hf ((elements_to_explain_eq_nil_iff es).mp hh)
      simp [build_tutorial_outline, hne, hE, hf, countSectionType, List.countP_cons,
        List.countP_append]

/-- C2 counterexample: on the empty element collection the builder returns an
empty outline — it contains zero introduction sections, not exactly one. -/
theorem C2_counterexample :
    build_tutorial_outline [] "proj" none = [] ∧
    countSectionType (build_tutorial_outline [] "proj" none) "introduction" = 0 := by
  constructor
  · decide
  · decide

/-- C2 witness: the amended section counts evaluated on a non-empty
collection with eligible elements and on a non-empty collection whose
elements all fail the filter. -/
theorem C2_outline_sections_witness :
    countSectionType (build_tutorial_outline [exB5, exAC2, exA1] "proj" none)
      "core_features_parent" = 1 ∧
    countSectionType (build_tutorial_outline [exSkip] "proj" none)
      "core_features_parent" = 0 ∧
    countSectionType (build_tutorial_outline [exSkip] "proj" none) "introduction" = 1 := by
  refine ⟨?_, ?_, ?_⟩
  · have h := (C2_outline_sections [exB5, exAC2, exA1] "proj" none).2 (by decide)
    exact h.2.2.2.trans (by decide)
  · have h := (C2_outline_sections [exSkip] "proj" none).2 (by decide)
    exact h.2.2.2.trans (by decide)
  · exact ((C2_outline_sections [exSkip] "proj" none).2 (by decide)).1

/-- C3: the core-features sub-sections are exactly the filtered elements
sorted ascending by the composite key (`file_path`, `owning_class` with
absent as `""`, `start_line`): the sorted list is `keyLe`-sorted, is a
permutation of the filtered collection, every parent section built carries
its image under `toFeatureDetail`, and the claim's concrete example yields
exactly the order a.py/None/1, a.py/C/2, b.py/None/5. -/
theorem C3_outline_ordering :
    (∀ es : List CodeElement, (elements_to_explain es).Sorted keyLe) ∧
    (∀ es : List CodeElement, (elements_to_explain es).Perm (es.filter outlineEligible)) ∧
    (∀ (es : List CodeElement) (pn : String) (ov : Option String) (sec : TutSection),
      sec ∈ build_tutorial_outline es pn ov → sec.section_type = "core_features_parent" →
      sec.sub_sections = (elements_to_explain es).map toFeatureDetail) ∧
    (elements_to_explain [exB5, exAC2, exA1]).map
        (fun e => (e.file_path, e.class_name, e.start_line)) =
      [("a.py", none, 1), ("a.py", some "C", 2), ("b.py", none, 5)] := by
  refine ⟨elements_to_explain_sorted, elements_to_explain_perm,
    outline_parent_sub_sections, by decide⟩

/-- C3 witness: the parent section of the outline built from the example
collection carries exactly the sorted sub-sections. -/
theorem C3_outline_ordering_witness :
    exParent ∈ exOutline ∧ exParent.section_type = "core_features_parent" ∧
    exParent.sub_sections = (elements_to_explain [exB5, exAC2, exA1]).map toFeatureDetail := by
  refine ⟨by decide, by decide, ?_⟩
  exact C3_outline_ordering.2.2.1 [exB5, exAC2, exA1] "proj" none exParent
    (by decide) (by decide)

/-! ## Helper lemmas: script synthesizer -/

theorem leafParts_length (o : Oracle) (ls : List (String × String)) : ∀ n,
    (leafParts o n ls).length = ls.length := by
  induction ls with
  | nil => intro n; simp [leafParts]
  | cons l ls ih => intro n; cases l; simp [leafParts, ih]

theorem leafParts_append (o : Oracle) (xs ys : List (String × String)) : ∀ n,
    leafParts o n (xs ++ ys) = leafParts o n xs ++ leafParts o (n + xs.length) ys := by
  induction xs with
  | nil => intro n; simp [leafParts]
  | cons x xs ih =>
    intro n
    cases x
    simp [leafParts, ih]
    have h : n + 1 + xs.length = n + (xs.length + 1) := by omega
    rw [h]

theorem leafParts_map_pair (o : Oracle) (ls : List (String × String)) : ∀ n,
    (leafParts o n ls).map (fun p => (p.title, p.type)) = ls := by
  induction ls with
  | nil => intro n; simp [leafParts]
  | cons l ls ih => intro n; cases l; simp [leafParts, ih]

theorem leafParts_getD_script (o : Oracle) (ls : List (String × String)) : ∀ n i,
    i < ls.length → o (n + i) = none →
    ((leafParts o n ls).getD i default).script = scriptSentinel := by
  induction ls with
  | nil => intro n i h _; simp at h
  | cons l ls ih =>
    intro n i h hfail
    cases l
    cases i with
    | zero =>
      simp only [Nat.add_zero] at hfail
      simp [leafParts, hfail, renderScript]
    | succ j =>
      have harith : n + (j + 1) = n + 1 + j := by omega
      rw [harith] at hfail
      simpa [leafParts] using ih (n + 1) j (by simpa using h) hfail

theorem scriptSubLoop_eq (o : Oracle) (subs : List SubSection) : ∀ n,
    scriptSubLoop o n subs =
      (leafParts o n (subs.map fun ss => (ss.title, ss.section_type)), n + subs.length) := by
  induction subs with
  | nil => intro n; simp [scriptSubLoop, leafParts]
  | cons ss subs ih =>
    intro n
    simp [scriptSubLoop, leafParts, ih, generate_script_for_section]
    omega

theorem script_eq_leafParts (o : Oracle) (outline : List TutSection) : ∀ n,
    generate_full_tutorial_script o n outline =
      (leafParts o n (outlineLeaves outline), n + leafCount outline) := by
  induction outline with
  | nil => intro n; simp [generate_full_tutorial_script, outlineLeaves, leafCount, leafParts]
  | cons sec rest ih =>
    intro n
    by_cases h : sec.section_type == "core_features_parent"
    · simp only [generate_full_tutorial_script, h, if_pos, scriptSubLoop_eq, ih,
        outlineLeaves, leafCount, List.flatMap_cons, if_true]
      rw [leafParts_append]
      simp [leafCount, List.length_append, List.length_map]
      omega
    · simp only [generate_full_tutorial_script, h, Bool.false_eq_true, if_false,
        generate_script_for_section, ih, outlineLeaves, leafCount, List.flatMap_cons]
      rw [leafParts_append]
      simp [leafParts, leafCount, renderScript]
      omega

/-- C6: for every outline the script synthesizer returns one `ScriptPart` per
leaf section (every section except a `core_features_parent`, plus each of a
parent's sub-sections), in outline traversal order (the parts' (title, type)
pairs are exactly the traversal's leaves); the i-th leaf consumes call
`n + i`, and when that call fails the part's script is the sentinel marker
rather than the part being omitted. -/
theorem C6_script_parts (o : Oracle) (n : Nat) (outline : List TutSection) :
    (generate_full_tutorial_script o n outline).1.length = leafCount outline ∧
    (generate_full_tutorial_script o n outline).1.map (fun p => (p.title, p.type)) =
      outlineLeaves outline ∧
    (∀ i, i < leafCount outline → o (n + i) = none →
      ((generate_full_tutorial_script o n outline).1.getD i default).script =
        scriptSentinel) := by
  rw [script_eq_leafParts]
  refine ⟨leafParts_length o (outlineLeaves outline) n,
    leafParts_map_pair o (outlineLeaves outline) n, ?_⟩
  intro i hi hfail
  exact leafParts_getD_script o (outlineLeaves outline) n i (by simpa [leafCount] using hi) hfail

/-- C6 witness: the outline built from the example collection has six leaves
(introduction, setup, three feature details, conclusion); under an
all-failing model every part is emitted with the sentinel script, e.g. the
third one. -/
theorem C6_script_parts_witness :
    (generate_full_tutorial_script oracleAllFail 0 exOutline).1.length = leafCount exOutline ∧
    leafCount exOutline = 6 ∧
    ((generate_full_tutorial_script oracleAllFail 0 exOutline).1.getD 2 default).script =
      scriptSentinel := by
  refine ⟨(C6_script_parts oracleAllFail 0 exOutline).1, by decide, ?_⟩
  exact (C6_script_parts oracleAllFail 0 exOutline).2.2 2 (by decide) rfl

/-- C9 counterexample: the post-processing is order-dependent — for the
successful response text consisting of a single quote, a double quote and
`a`, only the leading single quote is removed, and the stored docstring
still *begins with a double-quote character*; so the claim's "strips every
leading and every trailing double-quote or single-quote character" fails on
the code at this input. -/
theorem C9_counterexample :
    docstringOfResponse "'\"a" = "\"a" ∧
    (docstringOfResponse "'\"a").data.headD ' ' = '\"' := by
  constructor
  · decide
  · decide

/-- C9 (amended): the post-processing strips, from the whitespace-stripped
response (after code-fence removal), every leading and trailing double-quote
character and THEN every leading and trailing single-quote character — not
only a single triple-quote marker — so quote characters that are part of the
legitimate text at either end are removed (e.g. a docstring the model wrapped
in one pair of quotes loses them); a double quote guarded by an outer single
quote, however, survives. -/
theorem C9_docstring_quote_stripping :
    docstringOfResponse "\"\"\"Returns the sum.\"\"\"" = "Returns the sum." ∧
    docstringOfResponse "'''Returns the sum.'''" = "Returns the sum." ∧
    docstringOfResponse "\"Returns the sum.\"" = "Returns the sum." ∧
    docstringOfResponse "''legit text''" = "legit text" ∧
    docstringOfResponse "```python\n\"\"\"doc body\"\"\"\n```" = "doc body" ∧
    docstringOfResponse "  \"spaced\"  " = "spaced" ∧
    docstringOfResponse "'\"a" = "\"a" := by
  refine ⟨by decide, by decide, by decide, by decide, by decide, by decide, by decide⟩
